import Mathlib

/-!
# `StepReattachCDRom` (builder/vsphere/common/step_reattach_cdrom.go)

A shallow embedding of the step that reconciles the number of CD-ROM devices
of a virtual machine with `reattach_cdroms`, and the properties of its `Run`
and `Cleanup` methods.

The hypervisor driver (`driver.VirtualMachine`) is an external collaborator:
it is a parameter of the embedding, a deterministic machine over an arbitrary
state type `σ`, so that a theorem quantified over it speaks of every driver
behaviour.  The calls `Run` makes, the messages it prints and the keys it puts
into the state bag are logged in the execution state.
-/

namespace Vsphere

/-! ## Data model -/

/-- Go `error` values met by the step.  `ErrNoSataController` is the sentinel of
the driver package (compared by identity in `Run`), `errorString` is any other
error carrying its text, `Errorf pfx e` is the value built by
`fmt.Errorf(pfx + "%v", e)`. -/
inductive GoError where
  | ErrNoSataController : GoError
  | errorString (text : String) : GoError
  | Errorf (pfx : String) (arg : GoError) : GoError
  deriving DecidableEq, Repr

/-- The method `Error()`.  The text of the driver's sentinel is declared in the
driver package, outside this file: it is the parameter `sataText`. -/
def GoError.Error (sataText : String) : GoError → String
  | .ErrNoSataController => sataText
  | .errorString text => text
  | .Errorf pfx arg => pfx ++ GoError.Error sataText arg

/-- Result of a step: `multistep.ActionContinue` or `multistep.ActionHalt`. -/
inductive StepAction where
  | ActionContinue
  | ActionHalt
  deriving DecidableEq, Repr

/-- `ReattachCDRomConfig`: the option `reattach_cdroms`. -/
structure ReattachCDRomConfig where
  ReattachCDRom : Int
  deriving DecidableEq, Repr

/-- `CDRomConfig`, declared elsewhere in the package: the two fields `Run` reads. -/
structure CDRomConfig where
  CdromType : String
  ISOPaths : List String
  deriving DecidableEq, Repr

/-- `StepReattachCDRom`: both fields are pointers, `none` is the nil pointer. -/
structure StepReattachCDRom where
  Config : Option ReattachCDRomConfig
  CDRomConfig : Option CDRomConfig
  deriving DecidableEq, Repr

/-- Values held by the state bag (`interface{}`): a `packersdk.Ui`, a
`driver.VirtualMachine` handle, an error, or anything else. -/
inductive BagValue where
  | ui
  | vm
  | error (e : GoError)
  | other (tag : String)
  deriving DecidableEq, Repr

/-- `multistep.StateBag`: a map from keys to values. -/
abbrev StateBag := String → Option BagValue

/-- A call of a driver method, with its arguments. -/
inductive DriverCall where
  | RemoveCdroms (n : Int)
  | EjectCdroms
  | FindSATAController
  | AddSATAController
  | MakeCdroms (controllerType : String) (n : Int) (empty : Bool)
  deriving DecidableEq, Repr

/-- A driver call together with the error it returned (`none` is `nil`). -/
abbrev DriverEvent := DriverCall × Option GoError

/-- The consumed part of `driver.VirtualMachine`, over the state `σ` of the
remote machine.  Every method returns its error (`none` is `nil`) and the next
state; the controller handle of `FindSATAController` and the devices of
`MakeCdroms` are discarded by `Run` and are left out. -/
structure VirtualMachine (σ : Type) where
  RemoveCdroms : Int → σ → Option GoError × σ
  EjectCdroms : σ → Option GoError × σ
  FindSATAController : σ → Option GoError × σ
  AddSATAController : σ → Option GoError × σ
  MakeCdroms : String → Int → Bool → σ → Option GoError × σ

/-- Execution state: the remote machine, the state bag, and the logs of driver
calls, of `ui.Say` messages and of `state.Put` calls. -/
structure Exec (σ : Type) where
  vm : σ
  bag : StateBag
  trace : List DriverEvent
  said : List String
  puts : List (String × BagValue)

/-- An execution state with empty logs. -/
def Exec.start {σ : Type} (vm : σ) (bag : StateBag) : Exec σ :=
  { vm := vm, bag := bag, trace := [], said := [], puts := [] }

/-- `state.Put(key, value)`. -/
def Exec.Put {σ : Type} (x : Exec σ) (key : String) (value : BagValue) : Exec σ :=
  { x with
    bag := fun k => if k = key then some value else x.bag k
    puts := x.puts ++ [(key, value)] }

/-- `ui.Say(message)`. -/
def Exec.Say {σ : Type} (x : Exec σ) (message : String) : Exec σ :=
  { x with said := x.said ++ [message] }

/-- Perform a driver call: move the machine and log the event. -/
def Exec.invoke {σ : Type} (x : Exec σ) (call : DriverCall)
    (method : σ → Option GoError × σ) : Option GoError × Exec σ :=
  let r := method x.vm
  (r.1, { x with vm := r.2, trace := x.trace ++ [(call, r.1)] })

/-! ## `int(math.Abs(float64(n)))` -/

/-- The magnitude of `float64(m)` for a natural number `m`: the nearest number
with a 53 bit significand, ties to even. -/
def float64Round (m : Nat) : Nat :=
  if m < 2 ^ 53 then m
  else
    let e := Nat.log2 m - 52
    let q := m / 2 ^ e
    let r := m % 2 ^ e
    let half := 2 ^ (e - 1)
    if half < r ∨ (r = half ∧ q % 2 = 1) then (q + 1) * 2 ^ e else q * 2 ^ e

/-- The expression `int(math.Abs(float64(n)))`.  A value that does not fit `int`
converts to the smallest `int` (the amd64 result; Go leaves it to the
implementation). -/
def absViaFloat64 (n : Int) : Int :=
  let v := float64Round n.natAbs
  if v < 2 ^ 63 then (v : Int) else -(2 ^ 63 : Int)

/-! ## The step -/

/-- `StepReattachCDRom.Run`.  `none` is a panic: a failed type assertion on
`state.Get("ui")` or `state.Get("vm")`, or a nil `Config` or `CDRomConfig`
dereferenced.  `addMore` is the tail of the `else` branch (source lines 91-100),
reached from the three exits of the SATA controller check. -/
def Run {σ : Type} (d : VirtualMachine σ) (s : StepReattachCDRom) (x : Exec σ) :
    Option (StepAction × Exec σ) :=
  match x.bag "ui", x.bag "vm" with
  | some .ui, some .vm =>
    match s.Config with
    | none => none
    | some config =>
      let ReattachCDRom := config.ReattachCDRom
      if ReattachCDRom = 0 then
        some (.ActionContinue, x)
      else if ReattachCDRom < 1 ∨ ReattachCDRom > 4 then
        let err := GoError.errorString
          "'reattach_cdroms' should be between 1 and 4. if set to 0, `reattach_cdroms` is ignored and the step is skipped"
        some (.ActionHalt, x.Put "error" (.error (.Errorf "error reattach cdrom: " err)))
      else
        let x := x.Say "Reattaching CD-ROM devices..."
        match s.CDRomConfig with
        | none => none
        | some cdrom =>
          let n_actable_cdroms : Int := ReattachCDRom - (cdrom.ISOPaths.length : Int)
          if n_actable_cdroms < 0 then
            let k := absViaFloat64 n_actable_cdroms
            match x.invoke (.RemoveCdroms k) (d.RemoveCdroms k) with
            | (some err, x) =>
              some (.ActionHalt,
                x.Put "error" (.error (.Errorf "error removing cdrom prior to reattaching: " err)))
            | (none, x) =>
              let x := x.Say "Ejecting CD-ROM media..."
              match x.invoke .EjectCdroms d.EjectCdroms with
              | (some err, x) =>
                some (.ActionHalt, x.Put "error" (.error (.Errorf "error ejecting cdrom media: " err)))
              | (none, x) => some (.ActionContinue, x)
          else
            match x.invoke .EjectCdroms d.EjectCdroms with
            | (some err, x) =>
              some (.ActionHalt, x.Put "error" (.error (.Errorf "error ejecting cdrom media: " err)))
            | (none, x) =>
              match x.invoke (.RemoveCdroms 0) (d.RemoveCdroms 0) with
              | (some err, x) =>
                some (.ActionHalt,
                  x.Put "error" (.error (.Errorf "error removing cdrom prior to reattaching: " err)))
              | (none, x) =>
                let addMore : Exec σ → Option (StepAction × Exec σ) := fun x =>
                  if n_actable_cdroms > 0 then
                    let x := x.Say "Adding CD-ROM devices..."
                    match x.invoke (.MakeCdroms cdrom.CdromType n_actable_cdroms true)
                        (d.MakeCdroms cdrom.CdromType n_actable_cdroms true) with
                    | (some err, x) => some (.ActionHalt, x.Put "error" (.error err))
                    | (none, x) => some (.ActionContinue, x)
                  else some (.ActionContinue, x)
                if cdrom.CdromType = "sata" then
                  match x.invoke .FindSATAController d.FindSATAController with
                  | (some .ErrNoSataController, x) =>
                    let x := x.Say "Adding SATA controller..."
                    match x.invoke .AddSATAController d.AddSATAController with
                    | (some err, x) =>
                      some (.ActionHalt,
                        x.Put "error" (.error (.Errorf "error adding sata controller: " err)))
                    | (none, x) => addMore x
                  | (_, x) => addMore x
                else addMore x
  | _, _ => none

/-- `StepReattachCDRom.Cleanup`: the body is empty. -/
def Cleanup {σ : Type} (_d : VirtualMachine σ) (_s : StepReattachCDRom) (x : Exec σ) : Exec σ :=
  x

/-! ## Observations and test fixtures -/

/-- The calls of a trace, without their results. -/
def calls (trace : List DriverEvent) : List DriverCall :=
  trace.map Prod.fst

/-- Every call of the trace returned a nil error, the lookup of the SATA
controller apart (`Run` goes on after any error of `FindSATAController`). -/
def AllSucceeded (trace : List DriverEvent) : Prop :=
  ∀ ev ∈ trace, ev.1 ≠ .FindSATAController → ev.2 = none

/-- The calls of a trace that change the machine: all but the lookup of the
SATA controller. -/
def mutatingCalls (trace : List DriverEvent) : List DriverCall :=
  (calls trace).filter (fun c => c != .FindSATAController)

/-- Whether a driver method acts on the CD-ROM devices (`RemoveCdroms`,
`EjectCdroms`, `MakeCdroms`) rather than on the SATA controller. -/
def DriverCall.onCdroms : DriverCall → Bool
  | .RemoveCdroms _ => true
  | .EjectCdroms => true
  | .MakeCdroms _ _ _ => true
  | .FindSATAController => false
  | .AddSATAController => false

/-- The calls of a trace that act on the CD-ROM devices. -/
def cdromCalls (trace : List DriverEvent) : List DriverCall :=
  (calls trace).filter DriverCall.onCdroms

/-- A state bag as the builder hands it to the step: a `packersdk.Ui` under
`"ui"`, the driver handle under `"vm"`, nothing else. -/
def buildBag : StateBag := fun k =>
  if k = "ui" then some .ui else if k = "vm" then some .vm else none

/-- A driver without state that answers each method with a fixed error. -/
def fixedVM (remove eject find add make : Option GoError) : VirtualMachine Unit :=
  { RemoveCdroms := fun _ u => (remove, u)
    EjectCdroms := fun u => (eject, u)
    FindSATAController := fun u => (find, u)
    AddSATAController := fun u => (add, u)
    MakeCdroms := fun _ _ _ u => (make, u) }

/-- A driver every method of which succeeds (a SATA controller is found). -/
def healthyVM : VirtualMachine Unit :=
  fixedVM none none none none none

/-- A driver that finds no SATA controller and succeeds otherwise. -/
def noControllerVM : VirtualMachine Unit :=
  fixedVM none none (some .ErrNoSataController) none none

/-- A driver whose lookup of the SATA controller fails for a reason other than
its absence, and that succeeds otherwise. -/
def findFailsVM : VirtualMachine Unit :=
  fixedVM none none (some (.errorString "connection lost")) none none

/-- A driver that cannot create devices and succeeds otherwise. -/
def makeFailsVM : VirtualMachine Unit :=
  fixedVM none none none none (some (.errorString "make failed"))

/-- The trace of a run that wants three SATA devices on a machine without a
SATA controller. -/
def controllerAddedTrace : List DriverEvent :=
  [(.EjectCdroms, none), (.RemoveCdroms 0, none),
    (.FindSATAController, some .ErrNoSataController), (.AddSATAController, none),
    (.MakeCdroms "sata" 3 true, none)]

/-- A driver every method of which fails. -/
def brokenVM : VirtualMachine Unit :=
  fixedVM (some (.errorString "remove failed")) (some (.errorString "eject failed"))
    (some (.errorString "find failed")) (some (.errorString "add failed"))
    (some (.errorString "make failed"))

/-! ## The paths of `Run` -/

/-- The bag after a sequence of `Put`s. -/
def StateBag.after (bag : StateBag) (puts : List (String × BagValue)) : StateBag :=
  puts.foldl (fun b kv => fun k => if k = kv.1 then some kv.2 else b k) bag

/-- The passes through the SATA controller check (source lines 81-89) that go on
to the creation of devices: the calls made and the machine state reached. -/
inductive Controller {σ : Type} (d : VirtualMachine σ) (cdromType : String) (st : σ) :
    List DriverEvent → σ → Prop where
  | notSata (ht : cdromType ≠ "sata") : Controller d cdromType st [] st
  | notAdded (ht : cdromType = "sata") (f : Option GoError) (st1 : σ)
      (hfind : d.FindSATAController st = (f, st1)) (hf : f ≠ some .ErrNoSataController) :
      Controller d cdromType st [(.FindSATAController, f)] st1
  | added (ht : cdromType = "sata") (st1 st2 : σ)
      (hfind : d.FindSATAController st = (some .ErrNoSataController, st1))
      (hadd : d.AddSATAController st1 = (none, st2)) :
      Controller d cdromType st
        [(.FindSATAController, some .ErrNoSataController), (.AddSATAController, none)] st2

/-- The paths through source lines 51-100, for the bus type `cdromType` and the
difference `n` between the wanted count and the number of ISO paths: the action
returned, the driver calls made, the bag entries put, the machine state reached. -/
inductive Reconcile {σ : Type} (d : VirtualMachine σ) (cdromType : String) (n : Int) (st : σ) :
    StepAction → List DriverEvent → List (String × BagValue) → σ → Prop where
  | removeFailed (hn : n < 0) (e : GoError) (st1 : σ)
      (hremove : d.RemoveCdroms (absViaFloat64 n) st = (some e, st1)) :
      Reconcile d cdromType n st .ActionHalt
        [(.RemoveCdroms (absViaFloat64 n), some e)]
        [("error", .error (.Errorf "error removing cdrom prior to reattaching: " e))] st1
  | ejectFailedAfterRemove (hn : n < 0) (e : GoError) (st1 st2 : σ)
      (hremove : d.RemoveCdroms (absViaFloat64 n) st = (none, st1))
      (heject : d.EjectCdroms st1 = (some e, st2)) :
      Reconcile d cdromType n st .ActionHalt
        [(.RemoveCdroms (absViaFloat64 n), none), (.EjectCdroms, some e)]
        [("error", .error (.Errorf "error ejecting cdrom media: " e))] st2
  | removed (hn : n < 0) (st1 st2 : σ)
      (hremove : d.RemoveCdroms (absViaFloat64 n) st = (none, st1))
      (heject : d.EjectCdroms st1 = (none, st2)) :
      Reconcile d cdromType n st .ActionContinue
        [(.RemoveCdroms (absViaFloat64 n), none), (.EjectCdroms, none)] [] st2
  | ejectFailed (hn : 0 ≤ n) (e : GoError) (st1 : σ)
      (heject : d.EjectCdroms st = (some e, st1)) :
      Reconcile d cdromType n st .ActionHalt
        [(.EjectCdroms, some e)]
        [("error", .error (.Errorf "error ejecting cdrom media: " e))] st1
  | removeNoneFailed (hn : 0 ≤ n) (e : GoError) (st1 st2 : σ)
      (heject : d.EjectCdroms st = (none, st1))
      (hremove : d.RemoveCdroms 0 st1 = (some e, st2)) :
      Reconcile d cdromType n st .ActionHalt
        [(.EjectCdroms, none), (.RemoveCdroms 0, some e)]
        [("error", .error (.Errorf "error removing cdrom prior to reattaching: " e))] st2
  | addControllerFailed (hn : 0 ≤ n) (ht : cdromType = "sata") (e : GoError) (st1 st2 st3 st4 : σ)
      (heject : d.EjectCdroms st = (none, st1))
      (hremove : d.RemoveCdroms 0 st1 = (none, st2))
      (hfind : d.FindSATAController st2 = (some .ErrNoSataController, st3))
      (hadd : d.AddSATAController st3 = (some e, st4)) :
      Reconcile d cdromType n st .ActionHalt
        [(.EjectCdroms, none), (.RemoveCdroms 0, none),
          (.FindSATAController, some .ErrNoSataController), (.AddSATAController, some e)]
        [("error", .error (.Errorf "error adding sata controller: " e))] st4
  | kept (hn : n = 0) (st1 st2 st3 : σ) (ctl : List DriverEvent)
      (heject : d.EjectCdroms st = (none, st1))
      (hremove : d.RemoveCdroms 0 st1 = (none, st2))
      (hctl : Controller d cdromType st2 ctl st3) :
      Reconcile d cdromType n st .ActionContinue
        ([(.EjectCdroms, none), (.RemoveCdroms 0, none)] ++ ctl) [] st3
  | makeFailed (hn : 0 < n) (e : GoError) (st1 st2 st3 st4 : σ) (ctl : List DriverEvent)
      (heject : d.EjectCdroms st = (none, st1))
      (hremove : d.RemoveCdroms 0 st1 = (none, st2))
      (hctl : Controller d cdromType st2 ctl st3)
      (hmake : d.MakeCdroms cdromType n true st3 = (some e, st4)) :
      Reconcile d cdromType n st .ActionHalt
        ([(.EjectCdroms, none), (.RemoveCdroms 0, none)] ++ ctl
          ++ [(.MakeCdroms cdromType n true, some e)])
        [("error", .error e)] st4
  | made (hn : 0 < n) (st1 st2 st3 st4 : σ) (ctl : List DriverEvent)
      (heject : d.EjectCdroms st = (none, st1))
      (hremove : d.RemoveCdroms 0 st1 = (none, st2))
      (hctl : Controller d cdromType st2 ctl st3)
      (hmake : d.MakeCdroms cdromType n true st3 = (none, st4)) :
      Reconcile d cdromType n st .ActionContinue
        ([(.EjectCdroms, none), (.RemoveCdroms 0, none)] ++ ctl
          ++ [(.MakeCdroms cdromType n true, none)]) [] st4

/-- The outcomes of `Run`: skipped, refused, or one of the reconciliation paths. -/
inductive Outcome {σ : Type} (d : VirtualMachine σ) (s : StepReattachCDRom) (st : σ) :
    StepAction → List DriverEvent → List (String × BagValue) → σ → Prop where
  | skipped (hzero : s.Config = some ⟨0⟩) : Outcome d s st .ActionContinue [] [] st
  | refused (config : ReattachCDRomConfig) (hconfig : s.Config = some config)
      (hrange : config.ReattachCDRom < 0 ∨ 4 < config.ReattachCDRom) :
      Outcome d s st .ActionHalt [] [("error", .error (.Errorf "error reattach cdrom: "
        (.errorString
          "'reattach_cdroms' should be between 1 and 4. if set to 0, `reattach_cdroms` is ignored and the step is skipped")))] st
  | reconciled (config : ReattachCDRomConfig) (cdrom : CDRomConfig)
      (hconfig : s.Config = some config)
      (hlo : 1 ≤ config.ReattachCDRom) (hhi : config.ReattachCDRom ≤ 4)
      (hcdrom : s.CDRomConfig = some cdrom) (act : StepAction) (trace : List DriverEvent)
      (puts : List (String × BagValue)) (st1 : σ)
      (hpath : Reconcile d cdrom.CdromType
        (config.ReattachCDRom - (cdrom.ISOPaths.length : Int)) st act trace puts st1) :
      Outcome d s st act trace puts st1

/-! ## A machine that is a collection of CD-ROM devices -/

/-- Modelled from the spec: the driver package is not among the sources, and the
effect of its methods on the devices is taken from the specification.  A driver
`d` whose machine state shows the media of its CD-ROM devices (`none` is an
empty drive) through `devices`: a successful `RemoveCdroms(k)` removes exactly
`k` devices, a successful `EjectCdroms` empties every device, a successful
`MakeCdroms(_, k, true)` adds `k` empty devices, and the controller methods
leave the devices alone. -/
structure CdromCollection {σ : Type} (d : VirtualMachine σ)
    (devices : σ → List (Option String)) : Prop where
  remove : ∀ k st st1, d.RemoveCdroms k st = (none, st1) →
    (devices st1).Sublist (devices st) ∧ ((devices st1).length : Int) = (devices st).length - k
  eject : ∀ st st1, d.EjectCdroms st = (none, st1) →
    devices st1 = (devices st).map (fun _ => none)
  find : ∀ st f st1, d.FindSATAController st = (f, st1) → devices st1 = devices st
  add : ∀ st st1, d.AddSATAController st = (none, st1) → devices st1 = devices st
  make : ∀ t k st st1, d.MakeCdroms t k true st = (none, st1) →
    devices st1 = devices st ++ List.replicate k.toNat none

/-- State of the model machine: the media of its CD-ROM devices and whether it
has a SATA controller. -/
structure Machine where
  cdroms : List (Option String)
  sata : Bool
  deriving DecidableEq, Repr

/-- Modelled from the spec: the driver package is not among the sources.  A
driver over `Machine`: `RemoveCdroms(k)` drops the last `k` devices and fails
when there are fewer, `EjectCdroms` empties every device,
`FindSATAController` reports `ErrNoSataController` when there is no controller,
`AddSATAController` adds it, `MakeCdroms(_, k, empty)` appends `k` devices. -/
def cdromVM : VirtualMachine Machine :=
  { RemoveCdroms := fun k m =>
      if 0 ≤ k ∧ k ≤ (m.cdroms.length : Int) then
        (none, { m with cdroms := m.cdroms.take (m.cdroms.length - k.toNat) })
      else (some (.errorString "not enough cdroms"), m)
    EjectCdroms := fun m => (none, { m with cdroms := m.cdroms.map (fun _ => none) })
    FindSATAController := fun m =>
      if m.sata then (none, m) else (some .ErrNoSataController, m)
    AddSATAController := fun m => (none, { m with sata := true })
    MakeCdroms := fun _ k empty m =>
      (none, { m with
        cdroms := m.cdroms ++ List.replicate k.toNat (if empty then none else some "media") }) }

/-! ## Characterisation of `Run` -/

/-- A run that returns found a `packersdk.Ui` and a driver handle in the bag and a
non-nil `Config`. -/
theorem Run_preconditions {σ : Type} (d : VirtualMachine σ) (s : StepReattachCDRom)
    (x : Exec σ) (r : StepAction × Exec σ) (h : Run d s x = some r) :
    x.bag "ui" = some .ui ∧ x.bag "vm" = some .vm ∧ ∃ config, s.Config = some config := by
  unfold Run at h
  split at h
  · rename_i hui hvm
    refine ⟨hui, hvm, ?_⟩
    cases hc : s.Config with
    | none => simp [hc] at h
    | some config => exact ⟨config, rfl⟩
  · exact absurd h (by simp)

/-- With `reattach_cdroms = 0` the run returns at once. -/
theorem Run_skip_eq {σ : Type} (d : VirtualMachine σ) (s : StepReattachCDRom) (x : Exec σ)
    (hui : x.bag "ui" = some .ui) (hvm : x.bag "vm" = some .vm) (hzero : s.Config = some ⟨0⟩) :
    Run d s x = some (.ActionContinue, x) := by
  simp [Run, hui, hvm, hzero]

/-- Out of the range 0..4 the run puts the range error and halts. -/
theorem Run_refuse_eq {σ : Type} (d : VirtualMachine σ) (s : StepReattachCDRom) (x : Exec σ)
    (hui : x.bag "ui" = some .ui) (hvm : x.bag "vm" = some .vm)
    (config : ReattachCDRomConfig) (hconfig : s.Config = some config)
    (hrange : config.ReattachCDRom < 0 ∨ 4 < config.ReattachCDRom) :
    Run d s x = some (.ActionHalt, x.Put "error" (.error (.Errorf "error reattach cdrom: "
      (.errorString
        "'reattach_cdroms' should be between 1 and 4. if set to 0, `reattach_cdroms` is ignored and the step is skipped")))) := by
  have h0 : config.ReattachCDRom ≠ 0 := by omega
  have h1 : config.ReattachCDRom < 1 ∨ config.ReattachCDRom > 4 := by omega
  simp [Run, hui, hvm, hconfig, h0, h1]

/-- In the range 1..4 a nil `CDRomConfig` is dereferenced. -/
theorem Run_nil_cdrom {σ : Type} (d : VirtualMachine σ) (s : StepReattachCDRom) (x : Exec σ)
    (config : ReattachCDRomConfig) (hconfig : s.Config = some config)
    (hlo : 1 ≤ config.ReattachCDRom) (hhi : config.ReattachCDRom ≤ 4)
    (hcdrom : s.CDRomConfig = none) : Run d s x = none := by
  have h0 : config.ReattachCDRom ≠ 0 := by omega
  have h1 : ¬ (config.ReattachCDRom < 1 ∨ config.ReattachCDRom > 4) := by omega
  unfold Run
  split
  · simp [hconfig, h0, h1, hcdrom]
  · rfl

/-- In the range 1..4 the run returns, along one of the paths of `Reconcile`, and
the bag it leaves is the initial bag after its puts. -/
theorem Run_reconciles {σ : Type} (d : VirtualMachine σ) (s : StepReattachCDRom)
    (st : σ) (bag : StateBag) (hui : bag "ui" = some .ui) (hvm : bag "vm" = some .vm)
    (config : ReattachCDRomConfig) (hconfig : s.Config = some config)
    (hlo : 1 ≤ config.ReattachCDRom) (hhi : config.ReattachCDRom ≤ 4)
    (cdrom : CDRomConfig) (hcdrom : s.CDRomConfig = some cdrom) :
    ∃ act x', Run d s (Exec.start st bag) = some (act, x') ∧
      Reconcile d cdrom.CdromType (config.ReattachCDRom - (cdrom.ISOPaths.length : Int)) st
        act x'.trace x'.puts x'.vm ∧
      x'.bag = bag.after x'.puts := by
  have h0 : config.ReattachCDRom ≠ 0 := by omega
  have h1 : ¬ (config.ReattachCDRom < 1 ∨ config.ReattachCDRom > 4) := by omega
  simp only [Run, Exec.start, hui, hvm, hconfig, hcdrom, h0, h1, if_false, Exec.invoke,
    Exec.Say, Exec.Put]
  by_cases hn : config.ReattachCDRom - (cdrom.ISOPaths.length : Int) < 0
  · simp only [hn, if_true]
    rcases hremove : d.RemoveCdroms
      (absViaFloat64 (config.ReattachCDRom - (cdrom.ISOPaths.length : Int))) st with ⟨_ | e, st1⟩
    · rcases heject : d.EjectCdroms st1 with ⟨_ | e, st2⟩
      · simp only [heject]
        exact ⟨_, _, rfl, by simpa using Reconcile.removed hn st1 st2 hremove heject, rfl⟩
      · simp only [heject]
        exact ⟨_, _, rfl,
          by simpa using Reconcile.ejectFailedAfterRemove hn e st1 st2 hremove heject, rfl⟩
    · exact ⟨_, _, rfl, by simpa using Reconcile.removeFailed hn e st1 hremove, rfl⟩
  · have hn0 : 0 ≤ config.ReattachCDRom - (cdrom.ISOPaths.length : Int) := by omega
    simp only [hn, if_false]
    rcases heject : d.EjectCdroms st with ⟨_ | e, st1⟩
    · simp only []
      rcases hremove : d.RemoveCdroms 0 st1 with ⟨_ | e, st2⟩
      · simp only []
        by_cases ht : cdrom.CdromType = "sata"
        · rw [if_pos ht]
          rcases hfind : d.FindSATAController st2 with ⟨f, st3⟩
          by_cases hf : f = some .ErrNoSataController
          · subst hf
            simp only []
            rcases hadd : d.AddSATAController st3 with ⟨_ | e, st4⟩
            · have hctl := Controller.added ht st3 st4 hfind hadd
              simp only []
              by_cases hpos : 0 < config.ReattachCDRom - (cdrom.ISOPaths.length : Int)
              · simp only [gt_iff_lt, hpos, if_true]
                rcases hmake : d.MakeCdroms cdrom.CdromType
                    (config.ReattachCDRom - (cdrom.ISOPaths.length : Int)) true st4 with ⟨_ | e, st5⟩
                · exact ⟨_, _, rfl, by
                    simpa using Reconcile.made hpos st1 st2 st4 st5 _ heject hremove hctl hmake, rfl⟩
                · exact ⟨_, _, rfl, by
                    simpa using Reconcile.makeFailed hpos e st1 st2 st4 st5 _ heject hremove hctl hmake,
                    rfl⟩
              · simp only [gt_iff_lt, hpos, if_false]
                exact ⟨_, _, rfl, by
                  simpa using Reconcile.kept (by omega) st1 st2 st4 _ heject hremove hctl, rfl⟩
            · exact ⟨_, _, rfl, by
                simpa using Reconcile.addControllerFailed hn0 ht e st1 st2 st3 st4 heject hremove
                  hfind hadd, rfl⟩
          · have hctl := Controller.notAdded ht f st3 hfind hf
            rcases f with _ | _ | text | ⟨pfx, arg⟩
            · simp only []
              by_cases hpos : 0 < config.ReattachCDRom - (cdrom.ISOPaths.length : Int)
              · simp only [gt_iff_lt, hpos, if_true]
                rcases hmake : d.MakeCdroms cdrom.CdromType
                    (config.ReattachCDRom - (cdrom.ISOPaths.length : Int)) true st3 with ⟨_ | e, st5⟩
                · exact ⟨_, _, rfl, by
                    simpa using Reconcile.made hpos st1 st2 st3 st5 _ heject hremove hctl hmake, rfl⟩
                · exact ⟨_, _, rfl, by
                    simpa using Reconcile.makeFailed hpos e st1 st2 st3 st5 _ heject hremove hctl hmake,
                    rfl⟩
              · simp only [gt_iff_lt, hpos, if_false]
                exact ⟨_, _, rfl, by
                  simpa using Reconcile.kept (by omega) st1 st2 st3 _ heject hremove hctl, rfl⟩
            · exact absurd rfl hf
            · simp only []
              by_cases hpos : 0 < config.ReattachCDRom - (cdrom.ISOPaths.length : Int)
              · simp only [gt_iff_lt, hpos, if_true]
                rcases hmake : d.MakeCdroms cdrom.CdromType
                    (config.ReattachCDRom - (cdrom.ISOPaths.length : Int)) true st3 with ⟨_ | e, st5⟩
                · exact ⟨_, _, rfl, by
                    simpa using Reconcile.made hpos st1 st2 st3 st5 _ heject hremove hctl hmake, rfl⟩
                · exact ⟨_, _, rfl, by
                    simpa using Reconcile.makeFailed hpos e st1 st2 st3 st5 _ heject hremove hctl hmake,
                    rfl⟩
              · simp only [gt_iff_lt, hpos, if_false]
                exact ⟨_, _, rfl, by
                  simpa using Reconcile.kept (by omega) st1 st2 st3 _ heject hremove hctl, rfl⟩
            · simp only []
              by_cases hpos : 0 < config.ReattachCDRom - (cdrom.ISOPaths.length : Int)
              · simp only [gt_iff_lt, hpos, if_true]
                rcases hmake : d.MakeCdroms cdrom.CdromType
                    (config.ReattachCDRom - (cdrom.ISOPaths.length : Int)) true st3 with ⟨_ | e, st5⟩
                · exact ⟨_, _, rfl, by
                    simpa using Reconcile.made hpos st1 st2 st3 st5 _ heject hremove hctl hmake, rfl⟩
                · exact ⟨_, _, rfl, by
                    simpa using Reconcile.makeFailed hpos e st1 st2 st3 st5 _ heject hremove hctl hmake,
                    rfl⟩
              · simp only [gt_iff_lt, hpos, if_false]
                exact ⟨_, _, rfl, by
                  simpa using Reconcile.kept (by omega) st1 st2 st3 _ heject hremove hctl, rfl⟩
        · have hctl : Controller d cdrom.CdromType st2 [] st2 := Controller.notSata ht
          rw [if_neg ht]
          by_cases hpos : 0 < config.ReattachCDRom - (cdrom.ISOPaths.length : Int)
          · simp only [gt_iff_lt, hpos, if_true]
            rcases hmake : d.MakeCdroms cdrom.CdromType
                (config.ReattachCDRom - (cdrom.ISOPaths.length : Int)) true st2 with ⟨_ | e, st5⟩
            · exact ⟨_, _, rfl, by
                simpa using Reconcile.made hpos st1 st2 st2 st5 _ heject hremove hctl hmake, rfl⟩
            · exact ⟨_, _, rfl, by
                simpa using Reconcile.makeFailed hpos e st1 st2 st2 st5 _ heject hremove hctl hmake,
                rfl⟩
          · simp only [gt_iff_lt, hpos, if_false]
            exact ⟨_, _, rfl, by
              simpa using Reconcile.kept (by omega) st1 st2 st2 _ heject hremove hctl, rfl⟩
      · exact ⟨_, _, rfl, by simpa using Reconcile.removeNoneFailed hn0 e st1 st2 heject hremove, rfl⟩
    · exact ⟨_, _, rfl, by simpa using Reconcile.ejectFailed hn0 e st1 heject, rfl⟩

/-- Every run that returns follows one of the paths of `Outcome`. -/
theorem Run_outcome {σ : Type} (d : VirtualMachine σ) (s : StepReattachCDRom) (st : σ)
    (bag : StateBag) (act : StepAction) (x' : Exec σ)
    (h : Run d s (Exec.start st bag) = some (act, x')) :
    Outcome d s st act x'.trace x'.puts x'.vm ∧ x'.bag = bag.after x'.puts := by
  obtain ⟨hui, hvm, config, hconfig⟩ := Run_preconditions d s _ _ h
  by_cases hzero : config.ReattachCDRom = 0
  · have hc : s.Config = some ⟨0⟩ := by rw [hconfig, ← hzero]
    rw [Run_skip_eq d s _ hui hvm hc] at h
    cases h
    exact ⟨Outcome.skipped hc, rfl⟩
  · by_cases hrange : config.ReattachCDRom < 0 ∨ 4 < config.ReattachCDRom
    · rw [Run_refuse_eq d s _ hui hvm config hconfig hrange] at h
      cases h
      exact ⟨Outcome.refused config hconfig hrange, rfl⟩
    · have hlo : 1 ≤ config.ReattachCDRom := by omega
      have hhi : config.ReattachCDRom ≤ 4 := by omega
      cases hcd : s.CDRomConfig with
      | none => rw [Run_nil_cdrom d s _ config hconfig hlo hhi hcd] at h; cases h
      | some cdrom =>
        obtain ⟨act2, x2, hrun, hpath, hbag⟩ :=
          Run_reconciles d s st bag hui hvm config hconfig hlo hhi cdrom hcd
        rw [hrun] at h
        cases h
        exact ⟨Outcome.reconciled config cdrom hconfig hlo hhi hcd _ _ _ _ hpath, hbag⟩

/-! ## The step is skipped or refused before any driver call -/

/-- C1: when `reattach_cdroms` is 0, whatever the CD-ROM configuration (even a
nil one) and whatever the driver does, `Run` returns `ActionContinue`, calls no
driver method, puts no key into the state bag and leaves the bag and the
machine as they were. -/
theorem Run_zero_skips {σ : Type} (d : VirtualMachine σ) (s : StepReattachCDRom) (st : σ)
    (bag : StateBag) (hui : bag "ui" = some .ui) (hvm : bag "vm" = some .vm)
    (hzero : s.Config = some ⟨0⟩) :
    ∃ x', Run d s (Exec.start st bag) = some (.ActionContinue, x') ∧
      x'.trace = [] ∧ x'.puts = [] ∧ x'.bag = bag ∧ x'.vm = st := by
  refine ⟨Exec.start st bag, ?_, rfl, rfl, rfl, rfl⟩
  simp [Run, Exec.start, hui, hvm, hzero]

/-- Witness of C1: count 0, two ISO paths, SATA, a driver that fails every call. -/
theorem Run_zero_skips_witness :
    buildBag "ui" = some .ui ∧ buildBag "vm" = some .vm ∧
    ∃ x', Run brokenVM ⟨some ⟨0⟩, some ⟨"sata", ["a.iso", "b.iso"]⟩⟩ (Exec.start () buildBag)
        = some (.ActionContinue, x') ∧
      x'.trace = [] ∧ x'.puts = [] ∧ x'.bag = buildBag ∧ x'.vm = () :=
  ⟨rfl, rfl, Run_zero_skips brokenVM ⟨some ⟨0⟩, some ⟨"sata", ["a.iso", "b.iso"]⟩⟩ () buildBag
    rfl rfl rfl⟩

/-- C2: when `reattach_cdroms` is negative or above 4, whatever the CD-ROM
configuration and the driver, `Run` returns `ActionHalt`, calls no driver
method, and puts under `"error"` (its only write) an error whose text contains
"between 1 and 4". -/
theorem Run_out_of_range_halts {σ : Type} (d : VirtualMachine σ) (s : StepReattachCDRom)
    (st : σ) (bag : StateBag) (hui : bag "ui" = some .ui) (hvm : bag "vm" = some .vm)
    (config : ReattachCDRomConfig) (hconfig : s.Config = some config)
    (hrange : config.ReattachCDRom < 0 ∨ 4 < config.ReattachCDRom) :
    ∃ x' e, Run d s (Exec.start st bag) = some (.ActionHalt, x') ∧
      x'.trace = [] ∧ x'.vm = st ∧
      x'.puts = [("error", .error e)] ∧ x'.bag "error" = some (.error e) ∧
      ∀ sataText, ∃ pre post, e.Error sataText = pre ++ "between 1 and 4" ++ post := by
  have h0 : config.ReattachCDRom ≠ 0 := by omega
  have h1 : config.ReattachCDRom < 1 ∨ config.ReattachCDRom > 4 := by omega
  refine ⟨(Exec.start st bag).Put "error" (.error (.Errorf "error reattach cdrom: " (.errorString
    "'reattach_cdroms' should be between 1 and 4. if set to 0, `reattach_cdroms` is ignored and the step is skipped"))),
    _, ?_, rfl, rfl, rfl, ?_, ?_⟩
  · simp [Run, Exec.start, hui, hvm, hconfig, h0, h1]
  · simp [Exec.Put]
  · intro sataText
    exact ⟨"error reattach cdrom: 'reattach_cdroms' should be ",
      ". if set to 0, `reattach_cdroms` is ignored and the step is skipped", by
        simp only [GoError.Error]; decide⟩

/-- Witness of C2: count 5, a driver that fails every call. -/
theorem Run_out_of_range_halts_witness :
    buildBag "ui" = some .ui ∧ buildBag "vm" = some .vm ∧ ((5 : Int) < 0 ∨ (4 : Int) < 5) ∧
    ∃ x' e, Run brokenVM ⟨some ⟨5⟩, some ⟨"ide", ["a.iso"]⟩⟩ (Exec.start () buildBag)
        = some (.ActionHalt, x') ∧
      x'.trace = [] ∧ x'.vm = () ∧
      x'.puts = [("error", .error e)] ∧ x'.bag "error" = some (.error e) ∧
      ∀ sataText, ∃ pre post, e.Error sataText = pre ++ "between 1 and 4" ++ post :=
  ⟨rfl, rfl, Or.inr (by decide),
    Run_out_of_range_halts brokenVM ⟨some ⟨5⟩, some ⟨"ide", ["a.iso"]⟩⟩ () buildBag rfl rfl
      ⟨5⟩ rfl (Or.inr (by decide))⟩

/-! ## Device count after a successful run -/

/-- On the inputs `Run` meets, the round trip through `float64` is exact. -/
theorem absViaFloat64_exact (n : Int) (h : n.natAbs < 2 ^ 53) : absViaFloat64 n = |n| := by
  have h2 : n.natAbs < 2 ^ 63 := lt_trans h (by norm_num)
  unfold absViaFloat64 float64Round
  simp only [h, if_true, h2]
  simp

/-- Beyond `2 ^ 53` the round trip through `float64` is no longer exact. -/
theorem absViaFloat64_inexact :
    absViaFloat64 (-(2 ^ 53 + 1)) = 2 ^ 53 := by
  have hlog : Nat.log2 (2 ^ 53 + 1) = 53 := by
    rw [Nat.log2_eq_log_two]
    exact (Nat.log_eq_iff (Or.inl (by norm_num))).mpr ⟨by norm_num, by norm_num⟩
  have hnat : (-(2 ^ 53 + 1) : Int).natAbs = 2 ^ 53 + 1 := by decide
  unfold absViaFloat64 float64Round
  rw [hnat]
  simp only [hlog]
  norm_num

/-- The SATA controller check leaves the CD-ROM devices alone. -/
theorem Controller.devices_eq {σ : Type} {d : VirtualMachine σ}
    {devices : σ → List (Option String)} (hd : CdromCollection d devices) {t : String}
    {st st1 : σ} {ctl : List DriverEvent} (h : Controller d t st ctl st1) :
    devices st1 = devices st := by
  cases h with
  | notSata ht => rfl
  | notAdded ht f st1 hfind hf => exact hd.find _ _ _ hfind
  | added ht st1 st2 hfind hadd => rw [hd.add _ _ hadd, hd.find _ _ _ hfind]

/-- The model driver is a collection of CD-ROM devices. -/
theorem cdromVM_collection : CdromCollection cdromVM Machine.cdroms where
  remove := by
    intro k st st1 h
    simp only [cdromVM] at h
    split at h
    · rename_i hk
      cases h
      refine ⟨List.take_sublist _ _, ?_⟩
      simp only [List.length_take]
      omega
    · cases h
  eject := by
    intro st st1 h
    simp only [cdromVM] at h
    cases h
    rfl
  find := by
    intro st f st1 h
    simp only [cdromVM] at h
    split at h <;> cases h <;> rfl
  add := by
    intro st st1 h
    simp only [cdromVM] at h
    cases h
    rfl
  make := by
    intro t k st st1 h
    simp only [cdromVM] at h
    cases h
    rfl

/-- C3: over a driver that is a collection of CD-ROM devices holding at first as
many devices as there are ISO paths, a run with `reattach_cdroms` in 1..4 that
returns `ActionContinue` leaves exactly `reattach_cdroms` devices, all of them
empty (the number of ISO paths being below `2 ^ 53`, as for any slice that fits
in memory). -/
theorem Run_leaves_wanted_empty_devices {σ : Type} (d : VirtualMachine σ)
    (devices : σ → List (Option String)) (hd : CdromCollection d devices)
    (s : StepReattachCDRom) (st : σ) (bag : StateBag)
    (config : ReattachCDRomConfig) (hconfig : s.Config = some config)
    (hlo : 1 ≤ config.ReattachCDRom) (hhi : config.ReattachCDRom ≤ 4)
    (cdrom : CDRomConfig) (hcdrom : s.CDRomConfig = some cdrom)
    (hinit : (devices st).length = cdrom.ISOPaths.length)
    (hfit : cdrom.ISOPaths.length < 2 ^ 53)
    (x' : Exec σ) (hrun : Run d s (Exec.start st bag) = some (.ActionContinue, x')) :
    ((devices x'.vm).length : Int) = config.ReattachCDRom ∧
      ∀ media ∈ devices x'.vm, media = none := by
  obtain ⟨hout, -⟩ := Run_outcome d s st bag _ _ hrun
  obtain ⟨vm1, bag1, trace1, said1, puts1⟩ := x'
  simp only at hout ⊢
  cases hout with
  | skipped hzero => rw [hconfig] at hzero; cases hzero; exact absurd hlo (by decide)
  | reconciled config2 cdrom2 hconfig2 hlo2 hhi2 hcdrom2 _ _ _ _ hpath =>
    rw [hconfig] at hconfig2; cases hconfig2
    rw [hcdrom] at hcdrom2; cases hcdrom2
    cases hpath with
    | removed hn st1 st2 hremove heject =>
      have habs : absViaFloat64 (config.ReattachCDRom - (cdrom.ISOPaths.length : Int))
          = (cdrom.ISOPaths.length : Int) - config.ReattachCDRom := by
        rw [absViaFloat64_exact _ (by omega), abs_of_neg hn]; omega
      rw [habs] at hremove
      obtain ⟨-, hlen⟩ := hd.remove _ _ _ hremove
      rw [hd.eject _ _ heject]
      refine ⟨?_, ?_⟩
      · rw [List.length_map, hlen, hinit]; omega
      · intro media hm
        simp only [List.mem_map] at hm
        obtain ⟨_, -, rfl⟩ := hm
        rfl
    | kept hn st1 st2 st3 ctl heject hremove hctl =>
      obtain ⟨hsub, hlen⟩ := hd.remove _ _ _ hremove
      rw [hctl.devices_eq hd]
      refine ⟨?_, ?_⟩
      · rw [hlen, hd.eject _ _ heject, List.length_map, hinit]; omega
      · intro media hm
        have hm1 := hsub.subset hm
        rw [hd.eject _ _ heject, List.mem_map] at hm1
        obtain ⟨_, -, rfl⟩ := hm1
        rfl
    | made hn st1 st2 st3 st4 ctl heject hremove hctl hmake =>
      obtain ⟨hsub, hlen⟩ := hd.remove _ _ _ hremove
      rw [hd.make _ _ _ _ hmake, hctl.devices_eq hd]
      refine ⟨?_, ?_⟩
      · rw [List.length_append, List.length_replicate, Nat.cast_add, hlen, hd.eject _ _ heject,
          List.length_map, hinit, Int.toNat_of_nonneg (le_of_lt hn)]
        omega
      · intro media hm
        rcases List.mem_append.mp hm with hm | hm
        · have hm1 := hsub.subset hm
          rw [hd.eject _ _ heject, List.mem_map] at hm1
          obtain ⟨_, -, rfl⟩ := hm1
          rfl
        · exact (List.mem_replicate.mp hm).2

/-- Witness of C3: count 3, one ISO path, SATA, a machine with one loaded device
and no SATA controller. -/
theorem Run_leaves_wanted_empty_devices_witness :
    CdromCollection cdromVM Machine.cdroms ∧ (1 : Int) ≤ 3 ∧ (3 : Int) ≤ 4 ∧
    (Machine.cdroms ⟨[some "a.iso"], false⟩).length = ["a.iso"].length ∧
    ["a.iso"].length < 2 ^ 53 ∧
    Run cdromVM ⟨some ⟨3⟩, some ⟨"sata", ["a.iso"]⟩⟩ (Exec.start ⟨[some "a.iso"], false⟩ buildBag)
      = some (.ActionContinue,
          { vm := ⟨[none, none, none], true⟩, bag := buildBag,
            trace := [(.EjectCdroms, none), (.RemoveCdroms 0, none),
              (.FindSATAController, some .ErrNoSataController), (.AddSATAController, none),
              (.MakeCdroms "sata" 2 true, none)],
            said := ["Reattaching CD-ROM devices...", "Adding SATA controller...",
              "Adding CD-ROM devices..."],
            puts := [] }) ∧
    (((Machine.cdroms ⟨[none, none, none], true⟩).length : Int) = 3 ∧
      ∀ media ∈ Machine.cdroms ⟨[none, none, none], true⟩, media = none) :=
  ⟨cdromVM_collection, by decide, by decide, rfl, by decide, rfl,
    Run_leaves_wanted_empty_devices cdromVM Machine.cdroms cdromVM_collection
      ⟨some ⟨3⟩, some ⟨"sata", ["a.iso"]⟩⟩ ⟨[some "a.iso"], false⟩ buildBag ⟨3⟩ rfl
      (by decide) (by decide) ⟨"sata", ["a.iso"]⟩ rfl rfl (by decide) _ rfl⟩


/-! ## The calls made when there are at least as many ISO paths as wanted devices -/

/-- C4, amended: with `reattach_cdroms` in 1..4 and at least as many ISO paths
(fewer than `2 ^ 53`), `Run` returns `ActionContinue` only if `RemoveCdroms`,
called with the excess, and `EjectCdroms` both succeeded.  With more paths than
wanted devices the first call is `RemoveCdroms(excess)`: if the driver fails it,
it is the only call and `Run` halts; if the driver performs it, the trace is
exactly that call followed by `EjectCdroms`, and `Run` continues exactly when
`EjectCdroms` succeeds too.  With as many paths as wanted devices the order is
the opposite: `EjectCdroms` first, `RemoveCdroms(0)` second, a failure of either
being the last call and halting; when the driver performs both, they are the
first two calls and only calls about the SATA controller follow. -/
theorem Run_removes_excess {σ : Type} (d : VirtualMachine σ) (s : StepReattachCDRom)
    (st : σ) (bag : StateBag) (hui : bag "ui" = some .ui) (hvm : bag "vm" = some .vm)
    (config : ReattachCDRomConfig) (hconfig : s.Config = some config)
    (hlo : 1 ≤ config.ReattachCDRom) (hhi : config.ReattachCDRom ≤ 4)
    (cdrom : CDRomConfig) (hcdrom : s.CDRomConfig = some cdrom)
    (hge : config.ReattachCDRom ≤ (cdrom.ISOPaths.length : Int))
    (hfit : cdrom.ISOPaths.length < 2 ^ 53) :
    ∃ act x', Run d s (Exec.start st bag) = some (act, x') ∧
      (act = .ActionContinue →
        (.RemoveCdroms ((cdrom.ISOPaths.length : Int) - config.ReattachCDRom), none) ∈ x'.trace ∧
        (.EjectCdroms, none) ∈ x'.trace) ∧
      (config.ReattachCDRom < (cdrom.ISOPaths.length : Int) →
        (∀ e st1,
          d.RemoveCdroms ((cdrom.ISOPaths.length : Int) - config.ReattachCDRom) st
            = (some e, st1) →
          act = .ActionHalt ∧ x'.trace =
            [(.RemoveCdroms ((cdrom.ISOPaths.length : Int) - config.ReattachCDRom), some e)]) ∧
        (∀ st1 ejected st2,
          d.RemoveCdroms ((cdrom.ISOPaths.length : Int) - config.ReattachCDRom) st
            = (none, st1) →
          d.EjectCdroms st1 = (ejected, st2) →
          (act = .ActionContinue ↔ ejected = none) ∧ x'.trace =
            [(.RemoveCdroms ((cdrom.ISOPaths.length : Int) - config.ReattachCDRom), none),
              (.EjectCdroms, ejected)])) ∧
      ((cdrom.ISOPaths.length : Int) = config.ReattachCDRom →
        (∀ e st1, d.EjectCdroms st = (some e, st1) →
          act = .ActionHalt ∧ x'.trace = [(.EjectCdroms, some e)]) ∧
        (∀ st1 e st2, d.EjectCdroms st = (none, st1) → d.RemoveCdroms 0 st1 = (some e, st2) →
          act = .ActionHalt ∧
          x'.trace = [(.EjectCdroms, none), (.RemoveCdroms 0, some e)]) ∧
        (∀ st1 st2, d.EjectCdroms st = (none, st1) → d.RemoveCdroms 0 st1 = (none, st2) →
          ∃ rest, x'.trace = (.EjectCdroms, none) :: (.RemoveCdroms 0, none) :: rest ∧
            ∀ ev ∈ rest, ev.1 = .FindSATAController ∨ ev.1 = .AddSATAController)) := by
  obtain ⟨act, x', hrun, hpath, -⟩ :=
    Run_reconciles d s st bag hui hvm config hconfig hlo hhi cdrom hcdrom
  refine ⟨act, x', hrun, ?_⟩
  obtain ⟨vm1, bag1, trace1, said1, puts1⟩ := x'
  simp only at hpath ⊢
  have habs : config.ReattachCDRom - (cdrom.ISOPaths.length : Int) < 0 →
      absViaFloat64 (config.ReattachCDRom - (cdrom.ISOPaths.length : Int))
        = (cdrom.ISOPaths.length : Int) - config.ReattachCDRom := by
    intro hn
    rw [absViaFloat64_exact _ (by omega), abs_of_neg hn]; omega
  cases hpath with
  | removeFailed hn e st1 hremove =>
    rw [habs hn] at hremove ⊢
    refine ⟨by simp, fun _ => ⟨?_, ?_⟩, fun h => by omega⟩ <;> intros <;> simp_all <;> aesop
  | ejectFailedAfterRemove hn e st1 st2 hremove heject =>
    rw [habs hn] at hremove ⊢
    refine ⟨by simp, fun _ => ⟨?_, ?_⟩, fun h => by omega⟩ <;> intros <;> simp_all <;> aesop
  | removed hn st1 st2 hremove heject =>
    rw [habs hn] at hremove ⊢
    refine ⟨by simp, fun _ => ⟨?_, ?_⟩, fun h => by omega⟩ <;> intros <;> simp_all <;> aesop
  | ejectFailed hn e st1 heject =>
    refine ⟨by simp, fun h => by omega, fun _ => ⟨?_, ?_, ?_⟩⟩ <;> intros <;> simp_all <;> aesop
  | removeNoneFailed hn e st1 st2 heject hremove =>
    refine ⟨by simp, fun h => by omega, fun _ => ⟨?_, ?_, ?_⟩⟩ <;> intros <;> simp_all <;> aesop
  | addControllerFailed hn ht e st1 st2 st3 st4 heject hremove hfind hadd =>
    refine ⟨by simp, fun h => by omega, fun _ => ⟨?_, ?_, ?_⟩⟩ <;> intros <;> simp_all <;> aesop
  | kept hn st1 st2 st3 ctl heject hremove hctl =>
    have hk : (cdrom.ISOPaths.length : Int) - config.ReattachCDRom = 0 := by omega
    cases hctl <;>
      refine ⟨by simp [hk], fun h => by omega, fun _ => ⟨?_, ?_, ?_⟩⟩ <;> intros <;> simp_all <;> aesop
  | makeFailed hn e st1 st2 st3 st4 ctl heject hremove hctl hmake => omega
  | made hn st1 st2 st3 st4 ctl heject hremove hctl hmake => omega

/-- Witness of C4: count 1, two ISO paths, IDE, a driver that never fails. -/
theorem Run_removes_excess_witness :
    buildBag "ui" = some .ui ∧ buildBag "vm" = some .vm ∧
    (1 : Int) ≤ 1 ∧ (1 : Int) ≤ 4 ∧ (1 : Int) ≤ ((["a.iso", "b.iso"] : List String).length : Int) ∧
    (["a.iso", "b.iso"] : List String).length < 2 ^ 53 ∧
    Run healthyVM ⟨some ⟨1⟩, some ⟨"ide", ["a.iso", "b.iso"]⟩⟩ (Exec.start () buildBag)
      = some (.ActionContinue,
          { vm := (), bag := buildBag,
            trace := [(.RemoveCdroms 1, none), (.EjectCdroms, none)],
            said := ["Reattaching CD-ROM devices...", "Ejecting CD-ROM media..."],
            puts := [] }) ∧
    (∃ act x', Run healthyVM ⟨some ⟨1⟩, some ⟨"ide", ["a.iso", "b.iso"]⟩⟩ (Exec.start () buildBag) = some (act, x') ∧
      (act = .ActionContinue →
        (.RemoveCdroms (((["a.iso", "b.iso"] : List String).length : Int) - (1 : Int)), none) ∈ x'.trace ∧
        (.EjectCdroms, none) ∈ x'.trace) ∧
      ((1 : Int) < ((["a.iso", "b.iso"] : List String).length : Int) →
        (∀ e st1,
          healthyVM.RemoveCdroms (((["a.iso", "b.iso"] : List String).length : Int) - (1 : Int)) ()
            = (some e, st1) →
          act = .ActionHalt ∧ x'.trace =
            [(.RemoveCdroms (((["a.iso", "b.iso"] : List String).length : Int) - (1 : Int)), some e)]) ∧
        (∀ st1 ejected st2,
          healthyVM.RemoveCdroms (((["a.iso", "b.iso"] : List String).length : Int) - (1 : Int)) ()
            = (none, st1) →
          healthyVM.EjectCdroms st1 = (ejected, st2) →
          (act = .ActionContinue ↔ ejected = none) ∧ x'.trace =
            [(.RemoveCdroms (((["a.iso", "b.iso"] : List String).length : Int) - (1 : Int)), none),
              (.EjectCdroms, ejected)])) ∧
      (((["a.iso", "b.iso"] : List String).length : Int) = (1 : Int) →
        (∀ e st1, healthyVM.EjectCdroms () = (some e, st1) →
          act = .ActionHalt ∧ x'.trace = [(.EjectCdroms, some e)]) ∧
        (∀ st1 e st2, healthyVM.EjectCdroms () = (none, st1) → healthyVM.RemoveCdroms 0 st1 = (some e, st2) →
          act = .ActionHalt ∧
          x'.trace = [(.EjectCdroms, none), (.RemoveCdroms 0, some e)]) ∧
        (∀ st1 st2, healthyVM.EjectCdroms () = (none, st1) → healthyVM.RemoveCdroms 0 st1 = (none, st2) →
          ∃ rest, x'.trace = (.EjectCdroms, none) :: (.RemoveCdroms 0, none) :: rest ∧
            ∀ ev ∈ rest, ev.1 = .FindSATAController ∨ ev.1 = .AddSATAController))) :=
  ⟨rfl, rfl, by decide, by decide, by decide, by decide, rfl,
    Run_removes_excess healthyVM ⟨some ⟨1⟩, some ⟨"ide", ["a.iso", "b.iso"]⟩⟩ () buildBag
      rfl rfl ⟨1⟩ rfl (by decide) (by decide) ⟨"ide", ["a.iso", "b.iso"]⟩ rfl (by decide)
      (by decide)⟩

/-- Counterexample to C4 as stated: count 1 and one ISO path (equality), IDE, a
driver that never fails.  Every call succeeds and `Run` returns
`ActionContinue`, but the calls are `EjectCdroms` and then `RemoveCdroms(0)`,
not `RemoveCdroms(0)` followed by `EjectCdroms`. -/
theorem Run_equal_count_ejects_first :
    (1 : Int) ≤ (["a.iso"].length : Int) ∧
    ∃ x', Run healthyVM ⟨some ⟨1⟩, some ⟨"ide", ["a.iso"]⟩⟩ (Exec.start () buildBag)
        = some (.ActionContinue, x') ∧
      (∀ ev ∈ x'.trace, ev.2 = none) ∧
      calls x'.trace = [.EjectCdroms, .RemoveCdroms 0] ∧
      calls x'.trace ≠ [.RemoveCdroms ((["a.iso"].length : Int) - 1), .EjectCdroms] :=
  ⟨by decide,
    { vm := (), bag := buildBag, trace := [(.EjectCdroms, none), (.RemoveCdroms 0, none)],
      said := ["Reattaching CD-ROM devices..."], puts := [] },
    rfl, by decide, rfl, by decide⟩

/-! ## The calls made when devices are missing -/

/-- C5: with `reattach_cdroms` in 1..4 and fewer ISO paths, `Run` calls, in this
order, `EjectCdroms`, `RemoveCdroms(0)`, `FindSATAController` when the bus type
is "sata", `AddSATAController` exactly when the bus type is "sata" and
`FindSATAController` answered `ErrNoSataController`, and
`MakeCdroms(type, count - paths, true)`.  Whatever the driver answers, the trace
is the one listed here for its answers: a failure of `EjectCdroms`,
`RemoveCdroms(0)` or `AddSATAController` is the last call and `Run` halts; when
they succeed `MakeCdroms` is called, and `Run` returns `ActionContinue` if and
only if it succeeds too.  In terms of the trace alone: the calls that change
the machine are an initial part of that list, and `Run` continues if and only if
all of them were made and succeeded. -/
theorem Run_adds_missing {σ : Type} (d : VirtualMachine σ) (s : StepReattachCDRom)
    (st : σ) (bag : StateBag) (hui : bag "ui" = some .ui) (hvm : bag "vm" = some .vm)
    (config : ReattachCDRomConfig) (hconfig : s.Config = some config)
    (hlo : 1 ≤ config.ReattachCDRom) (hhi : config.ReattachCDRom ≤ 4)
    (cdrom : CDRomConfig) (hcdrom : s.CDRomConfig = some cdrom)
    (hlt : (cdrom.ISOPaths.length : Int) < config.ReattachCDRom) :
    ∃ act x', Run d s (Exec.start st bag) = some (act, x') ∧
      mutatingCalls x'.trace <+:
        [.EjectCdroms, .RemoveCdroms 0]
          ++ (if cdrom.CdromType = "sata"
                ∧ (.FindSATAController, some .ErrNoSataController) ∈ x'.trace
              then [.AddSATAController] else [])
          ++ [.MakeCdroms cdrom.CdromType
                (config.ReattachCDRom - (cdrom.ISOPaths.length : Int)) true] ∧
      (act = .ActionContinue ↔
        AllSucceeded x'.trace ∧
        mutatingCalls x'.trace =
          [.EjectCdroms, .RemoveCdroms 0]
            ++ (if cdrom.CdromType = "sata"
                  ∧ (.FindSATAController, some .ErrNoSataController) ∈ x'.trace
                then [.AddSATAController] else [])
            ++ [.MakeCdroms cdrom.CdromType
                  (config.ReattachCDRom - (cdrom.ISOPaths.length : Int)) true]) ∧
      (∀ e st1, d.EjectCdroms st = (some e, st1) →
        act = .ActionHalt ∧ x'.trace = [(.EjectCdroms, some e)]) ∧
      (∀ st1 e st2, d.EjectCdroms st = (none, st1) → d.RemoveCdroms 0 st1 = (some e, st2) →
        act = .ActionHalt ∧ x'.trace = [(.EjectCdroms, none), (.RemoveCdroms 0, some e)]) ∧
      (∀ st1 st2 made st3, d.EjectCdroms st = (none, st1) → d.RemoveCdroms 0 st1 = (none, st2) →
        cdrom.CdromType ≠ "sata" →
        d.MakeCdroms cdrom.CdromType (config.ReattachCDRom - (cdrom.ISOPaths.length : Int))
          true st2 = (made, st3) →
        (act = .ActionContinue ↔ made = none) ∧
        x'.trace = [(.EjectCdroms, none), (.RemoveCdroms 0, none),
          (.MakeCdroms cdrom.CdromType (config.ReattachCDRom - (cdrom.ISOPaths.length : Int))
            true, made)]) ∧
      (∀ st1 st2 found st3 made st4,
        d.EjectCdroms st = (none, st1) → d.RemoveCdroms 0 st1 = (none, st2) →
        cdrom.CdromType = "sata" →
        d.FindSATAController st2 = (found, st3) → found ≠ some .ErrNoSataController →
        d.MakeCdroms cdrom.CdromType (config.ReattachCDRom - (cdrom.ISOPaths.length : Int))
          true st3 = (made, st4) →
        (act = .ActionContinue ↔ made = none) ∧
        x'.trace = [(.EjectCdroms, none), (.RemoveCdroms 0, none),
          (.FindSATAController, found),
          (.MakeCdroms cdrom.CdromType (config.ReattachCDRom - (cdrom.ISOPaths.length : Int))
            true, made)]) ∧
      (∀ st1 st2 st3 e st4,
        d.EjectCdroms st = (none, st1) → d.RemoveCdroms 0 st1 = (none, st2) →
        cdrom.CdromType = "sata" →
        d.FindSATAController st2 = (some .ErrNoSataController, st3) →
        d.AddSATAController st3 = (some e, st4) →
        act = .ActionHalt ∧
        x'.trace = [(.EjectCdroms, none), (.RemoveCdroms 0, none),
          (.FindSATAController, some .ErrNoSataController), (.AddSATAController, some e)]) ∧
      (∀ st1 st2 st3 st4 made st5,
        d.EjectCdroms st = (none, st1) → d.RemoveCdroms 0 st1 = (none, st2) →
        cdrom.CdromType = "sata" →
        d.FindSATAController st2 = (some .ErrNoSataController, st3) →
        d.AddSATAController st3 = (none, st4) →
        d.MakeCdroms cdrom.CdromType (config.ReattachCDRom - (cdrom.ISOPaths.length : Int))
          true st4 = (made, st5) →
        (act = .ActionContinue ↔ made = none) ∧
        x'.trace = [(.EjectCdroms, none), (.RemoveCdroms 0, none),
          (.FindSATAController, some .ErrNoSataController), (.AddSATAController, none),
          (.MakeCdroms cdrom.CdromType (config.ReattachCDRom - (cdrom.ISOPaths.length : Int))
            true, made)]) := by
  obtain ⟨act, x', hrun, hpath, -⟩ :=
    Run_reconciles d s st bag hui hvm config hconfig hlo hhi cdrom hcdrom
  refine ⟨act, x', hrun, ?_⟩
  obtain ⟨vm1, bag1, trace1, said1, puts1⟩ := x'
  simp only at hpath ⊢
  cases hpath with
  | removeFailed hn e st1 hremove => omega
  | ejectFailedAfterRemove hn e st1 st2 hremove heject => omega
  | removed hn st1 st2 hremove heject => omega
  | ejectFailed hn e st1 heject =>
    refine ⟨by simp [AllSucceeded, mutatingCalls, calls, List.prefix_iff_eq_append],
      by simp [AllSucceeded, mutatingCalls, calls], ?_, ?_, ?_, ?_, ?_, ?_⟩ <;> intros <;> simp_all
  | removeNoneFailed hn e st1 st2 heject hremove =>
    refine ⟨by simp [AllSucceeded, mutatingCalls, calls], by simp [AllSucceeded, mutatingCalls, calls], ?_, ?_, ?_, ?_, ?_, ?_⟩ <;> intros <;> simp_all
  | addControllerFailed hn ht e st1 st2 st3 st4 heject hremove hfind hadd =>
    refine ⟨by simp [AllSucceeded, mutatingCalls, calls, ht],
      by simp [AllSucceeded, mutatingCalls, calls, ht], ?_, ?_, ?_, ?_, ?_, ?_⟩ <;>
      intros <;> simp_all
  | kept hn st1 st2 st3 ctl heject hremove hctl => omega
  | makeFailed hn e st1 st2 st3 st4 ctl heject hremove hctl hmake =>
    cases hctl with
    | notSata ht =>
      refine ⟨by simp_all [AllSucceeded, mutatingCalls, calls], by simp_all [AllSucceeded, mutatingCalls, calls], ?_, ?_, ?_, ?_, ?_, ?_⟩ <;> intros <;> simp_all <;> aesop
    | notAdded ht f st5 hfind hf =>
      have hf2 : ¬ some GoError.ErrNoSataController = f := fun h => hf h.symm
      refine ⟨by simp_all [AllSucceeded, mutatingCalls, calls], by simp_all [AllSucceeded, mutatingCalls, calls], ?_, ?_, ?_, ?_, ?_, ?_⟩ <;> intros <;> simp_all <;> aesop
    | added ht st5 st6 hfind hadd =>
      refine ⟨by simp_all [AllSucceeded, mutatingCalls, calls], by simp_all [AllSucceeded, mutatingCalls, calls], ?_, ?_, ?_, ?_, ?_, ?_⟩ <;> intros <;> simp_all <;> aesop
  | made hn st1 st2 st3 st4 ctl heject hremove hctl hmake =>
    cases hctl with
    | notSata ht =>
      refine ⟨by simp_all [AllSucceeded, mutatingCalls, calls], by simp_all [AllSucceeded, mutatingCalls, calls], ?_, ?_, ?_, ?_, ?_, ?_⟩ <;> intros <;> simp_all
    | notAdded ht f st5 hfind hf =>
      have hf2 : ¬ some GoError.ErrNoSataController = f := fun h => hf h.symm
      refine ⟨by simp_all [AllSucceeded, mutatingCalls, calls], by simp_all [AllSucceeded, mutatingCalls, calls], ?_, ?_, ?_, ?_, ?_, ?_⟩ <;> intros <;> simp_all
    | added ht st5 st6 hfind hadd =>
      refine ⟨by simp_all [AllSucceeded, mutatingCalls, calls], by simp_all [AllSucceeded, mutatingCalls, calls], ?_, ?_, ?_, ?_, ?_, ?_⟩ <;> intros <;> simp_all

/-- Witness of C5: count 2, one ISO path, IDE gives `EjectCdroms`,
`RemoveCdroms(0)`, `MakeCdroms("ide", 1, true)`; count 3, no ISO path, SATA and
no controller gives `EjectCdroms`, `RemoveCdroms(0)`, `FindSATAController`,
`AddSATAController`, `MakeCdroms("sata", 3, true)`; both continue. -/
theorem Run_adds_missing_witness :
    (buildBag "ui" = some .ui ∧ buildBag "vm" = some .vm ∧
      (1 : Int) ≤ 2 ∧ (2 : Int) ≤ 4 ∧ ((["a.iso"] : List String).length : Int) < 2 ∧
      Run healthyVM ⟨some ⟨2⟩, some ⟨"ide", ["a.iso"]⟩⟩ (Exec.start () buildBag)
        = some (.ActionContinue,
            { vm := (), bag := buildBag,
              trace := [(.EjectCdroms, none), (.RemoveCdroms 0, none),
                (.MakeCdroms "ide" 1 true, none)],
              said := ["Reattaching CD-ROM devices...", "Adding CD-ROM devices..."],
              puts := [] }) ∧
      (∃ act x', Run healthyVM ⟨some ⟨2⟩, some ⟨"ide", ["a.iso"]⟩⟩ (Exec.start () buildBag) = some (act, x') ∧
      mutatingCalls x'.trace <+:
        [.EjectCdroms, .RemoveCdroms 0]
          ++ (if "ide" = "sata"
                ∧ (.FindSATAController, some .ErrNoSataController) ∈ x'.trace
              then [.AddSATAController] else [])
          ++ [.MakeCdroms "ide"
                ((2 : Int) - ((["a.iso"] : List String).length : Int)) true] ∧
      (act = .ActionContinue ↔
        AllSucceeded x'.trace ∧
        mutatingCalls x'.trace =
          [.EjectCdroms, .RemoveCdroms 0]
            ++ (if "ide" = "sata"
                  ∧ (.FindSATAController, some .ErrNoSataController) ∈ x'.trace
                then [.AddSATAController] else [])
            ++ [.MakeCdroms "ide"
                  ((2 : Int) - ((["a.iso"] : List String).length : Int)) true]) ∧
      (∀ e st1, healthyVM.EjectCdroms () = (some e, st1) →
        act = .ActionHalt ∧ x'.trace = [(.EjectCdroms, some e)]) ∧
      (∀ st1 e st2, healthyVM.EjectCdroms () = (none, st1) → healthyVM.RemoveCdroms 0 st1 = (some e, st2) →
        act = .ActionHalt ∧ x'.trace = [(.EjectCdroms, none), (.RemoveCdroms 0, some e)]) ∧
      (∀ st1 st2 made st3, healthyVM.EjectCdroms () = (none, st1) → healthyVM.RemoveCdroms 0 st1 = (none, st2) →
        "ide" ≠ "sata" →
        healthyVM.MakeCdroms "ide" ((2 : Int) - ((["a.iso"] : List String).length : Int))
          true st2 = (made, st3) →
        (act = .ActionContinue ↔ made = none) ∧
        x'.trace = [(.EjectCdroms, none), (.RemoveCdroms 0, none),
          (.MakeCdroms "ide" ((2 : Int) - ((["a.iso"] : List String).length : Int))
            true, made)]) ∧
      (∀ st1 st2 found st3 made st4,
        healthyVM.EjectCdroms () = (none, st1) → healthyVM.RemoveCdroms 0 st1 = (none, st2) →
        "ide" = "sata" →
        healthyVM.FindSATAController st2 = (found, st3) → found ≠ some .ErrNoSataController →
        healthyVM.MakeCdroms "ide" ((2 : Int) - ((["a.iso"] : List String).length : Int))
          true st3 = (made, st4) →
        (act = .ActionContinue ↔ made = none) ∧
        x'.trace = [(.EjectCdroms, none), (.RemoveCdroms 0, none),
          (.FindSATAController, found),
          (.MakeCdroms "ide" ((2 : Int) - ((["a.iso"] : List String).length : Int))
            true, made)]) ∧
      (∀ st1 st2 st3 e st4,
        healthyVM.EjectCdroms () = (none, st1) → healthyVM.RemoveCdroms 0 st1 = (none, st2) →
        "ide" = "sata" →
        healthyVM.FindSATAController st2 = (some .ErrNoSataController, st3) →
        healthyVM.AddSATAController st3 = (some e, st4) →
        act = .ActionHalt ∧
        x'.trace = [(.EjectCdroms, none), (.RemoveCdroms 0, none),
          (.FindSATAController, some .ErrNoSataController), (.AddSATAController, some e)]) ∧
      (∀ st1 st2 st3 st4 made st5,
        healthyVM.EjectCdroms () = (none, st1) → healthyVM.RemoveCdroms 0 st1 = (none, st2) →
        "ide" = "sata" →
        healthyVM.FindSATAController st2 = (some .ErrNoSataController, st3) →
        healthyVM.AddSATAController st3 = (none, st4) →
        healthyVM.MakeCdroms "ide" ((2 : Int) - ((["a.iso"] : List String).length : Int))
          true st4 = (made, st5) →
        (act = .ActionContinue ↔ made = none) ∧
        x'.trace = [(.EjectCdroms, none), (.RemoveCdroms 0, none),
          (.FindSATAController, some .ErrNoSataController), (.AddSATAController, none),
          (.MakeCdroms "ide" ((2 : Int) - ((["a.iso"] : List String).length : Int))
            true, made)]))) ∧
    ((1 : Int) ≤ 3 ∧ (3 : Int) ≤ 4 ∧ (([] : List String).length : Int) < 3 ∧
      Run noControllerVM ⟨some ⟨3⟩, some ⟨"sata", []⟩⟩ (Exec.start () buildBag)
        = some (.ActionContinue,
            { vm := (), bag := buildBag,
              trace := [(.EjectCdroms, none), (.RemoveCdroms 0, none),
                (.FindSATAController, some .ErrNoSataController), (.AddSATAController, none),
                (.MakeCdroms "sata" 3 true, none)],
              said := ["Reattaching CD-ROM devices...", "Adding SATA controller...",
                "Adding CD-ROM devices..."],
              puts := [] }) ∧
      (∃ act x', Run noControllerVM ⟨some ⟨3⟩, some ⟨"sata", []⟩⟩ (Exec.start () buildBag) = some (act, x') ∧
      mutatingCalls x'.trace <+:
        [.EjectCdroms, .RemoveCdroms 0]
          ++ (if "sata" = "sata"
                ∧ (.FindSATAController, some .ErrNoSataController) ∈ x'.trace
              then [.AddSATAController] else [])
          ++ [.MakeCdroms "sata"
                ((3 : Int) - (([] : List String).length : Int)) true] ∧
      (act = .ActionContinue ↔
        AllSucceeded x'.trace ∧
        mutatingCalls x'.trace =
          [.EjectCdroms, .RemoveCdroms 0]
            ++ (if "sata" = "sata"
                  ∧ (.FindSATAController, some .ErrNoSataController) ∈ x'.trace
                then [.AddSATAController] else [])
            ++ [.MakeCdroms "sata"
                  ((3 : Int) - (([] : List String).length : Int)) true]) ∧
      (∀ e st1, noControllerVM.EjectCdroms () = (some e, st1) →
        act = .ActionHalt ∧ x'.trace = [(.EjectCdroms, some e)]) ∧
      (∀ st1 e st2, noControllerVM.EjectCdroms () = (none, st1) → noControllerVM.RemoveCdroms 0 st1 = (some e, st2) →
        act = .ActionHalt ∧ x'.trace = [(.EjectCdroms, none), (.RemoveCdroms 0, some e)]) ∧
      (∀ st1 st2 made st3, noControllerVM.EjectCdroms () = (none, st1) → noControllerVM.RemoveCdroms 0 st1 = (none, st2) →
        "sata" ≠ "sata" →
        noControllerVM.MakeCdroms "sata" ((3 : Int) - (([] : List String).length : Int))
          true st2 = (made, st3) →
        (act = .ActionContinue ↔ made = none) ∧
        x'.trace = [(.EjectCdroms, none), (.RemoveCdroms 0, none),
          (.MakeCdroms "sata" ((3 : Int) - (([] : List String).length : Int))
            true, made)]) ∧
      (∀ st1 st2 found st3 made st4,
        noControllerVM.EjectCdroms () = (none, st1) → noControllerVM.RemoveCdroms 0 st1 = (none, st2) →
        "sata" = "sata" →
        noControllerVM.FindSATAController st2 = (found, st3) → found ≠ some .ErrNoSataController →
        noControllerVM.MakeCdroms "sata" ((3 : Int) - (([] : List String).length : Int))
          true st3 = (made, st4) →
        (act = .ActionContinue ↔ made = none) ∧
        x'.trace = [(.EjectCdroms, none), (.RemoveCdroms 0, none),
          (.FindSATAController, found),
          (.MakeCdroms "sata" ((3 : Int) - (([] : List String).length : Int))
            true, made)]) ∧
      (∀ st1 st2 st3 e st4,
        noControllerVM.EjectCdroms () = (none, st1) → noControllerVM.RemoveCdroms 0 st1 = (none, st2) →
        "sata" = "sata" →
        noControllerVM.FindSATAController st2 = (some .ErrNoSataController, st3) →
        noControllerVM.AddSATAController st3 = (some e, st4) →
        act = .ActionHalt ∧
        x'.trace = [(.EjectCdroms, none), (.RemoveCdroms 0, none),
          (.FindSATAController, some .ErrNoSataController), (.AddSATAController, some e)]) ∧
      (∀ st1 st2 st3 st4 made st5,
        noControllerVM.EjectCdroms () = (none, st1) → noControllerVM.RemoveCdroms 0 st1 = (none, st2) →
        "sata" = "sata" →
        noControllerVM.FindSATAController st2 = (some .ErrNoSataController, st3) →
        noControllerVM.AddSATAController st3 = (none, st4) →
        noControllerVM.MakeCdroms "sata" ((3 : Int) - (([] : List String).length : Int))
          true st4 = (made, st5) →
        (act = .ActionContinue ↔ made = none) ∧
        x'.trace = [(.EjectCdroms, none), (.RemoveCdroms 0, none),
          (.FindSATAController, some .ErrNoSataController), (.AddSATAController, none),
          (.MakeCdroms "sata" ((3 : Int) - (([] : List String).length : Int))
            true, made)]))) :=
  ⟨⟨rfl, rfl, by decide, by decide, by decide, rfl,
      Run_adds_missing healthyVM ⟨some ⟨2⟩, some ⟨"ide", ["a.iso"]⟩⟩ () buildBag rfl rfl
        ⟨2⟩ rfl (by decide) (by decide) ⟨"ide", ["a.iso"]⟩ rfl (by decide)⟩,
    ⟨by decide, by decide, by decide, rfl,
      Run_adds_missing noControllerVM ⟨some ⟨3⟩, some ⟨"sata", []⟩⟩ () buildBag rfl rfl
        ⟨3⟩ rfl (by decide) (by decide) ⟨"sata", []⟩ rfl (by decide)⟩⟩

/-! ## Driver errors -/

/-- C6, at the failing input: count 2, no ISO path, SATA, `FindSATAController`
fails with an error that is not `ErrNoSataController`.  `Run` goes on to
`MakeCdroms` and returns `ActionContinue`, without putting any error. -/
theorem Run_goes_on_after_find_failure :
    Run findFailsVM ⟨some ⟨2⟩, some ⟨"sata", []⟩⟩ (Exec.start () buildBag)
      = some (.ActionContinue,
          { vm := (), bag := buildBag,
            trace := [(.EjectCdroms, none), (.RemoveCdroms 0, none),
              (.FindSATAController, some (.errorString "connection lost")),
              (.MakeCdroms "sata" 2 true, none)],
            said := ["Reattaching CD-ROM devices...", "Adding CD-ROM devices..."],
            puts := [] }) :=
  rfl

/-- C7, at the failing input: count 2, one ISO path, IDE, `MakeCdroms` fails
with the error `e`.  `Run` halts and puts under `"error"` the value `e` itself,
whose text has no descriptive beginning added. -/
theorem Run_puts_make_error_unwrapped :
    ∃ x', Run makeFailsVM ⟨some ⟨2⟩, some ⟨"ide", ["a.iso"]⟩⟩ (Exec.start () buildBag)
        = some (.ActionHalt, x') ∧
      x'.trace = [(.EjectCdroms, none), (.RemoveCdroms 0, none),
        (.MakeCdroms "ide" 1 true, some (.errorString "make failed"))] ∧
      x'.puts = [("error", .error (.errorString "make failed"))] ∧
      x'.bag "error" = some (.error (.errorString "make failed")) ∧
      ∀ sataText, (GoError.errorString "make failed").Error sataText = "make failed" :=
  ⟨(Exec.mk () buildBag
      [(.EjectCdroms, none), (.RemoveCdroms 0, none),
        (.MakeCdroms "ide" 1 true, some (.errorString "make failed"))]
      ["Reattaching CD-ROM devices...", "Adding CD-ROM devices..."] []).Put
      "error" (.error (.errorString "make failed")),
    rfl, rfl, rfl, rfl, fun _ => rfl⟩

/-! ## The state bag -/

/-- C8: for every run, `Run` returns `ActionHalt` if and only if it put the key
`"error"`; it puts that key at most once; and when it returns `ActionContinue`
it has put no key and the bag is as it was. -/
theorem Run_halts_iff_error_put {σ : Type} (d : VirtualMachine σ) (s : StepReattachCDRom)
    (st : σ) (bag : StateBag) (act : StepAction) (x' : Exec σ)
    (hrun : Run d s (Exec.start st bag) = some (act, x')) :
    (act = .ActionHalt ↔ ∃ value, ("error", value) ∈ x'.puts) ∧
      (x'.puts.map Prod.fst).count "error" ≤ 1 ∧
      (act = .ActionContinue → x'.puts = [] ∧ x'.bag = bag) := by
  obtain ⟨hout, hbag⟩ := Run_outcome d s st bag _ _ hrun
  obtain ⟨vm1, bag1, trace1, said1, puts1⟩ := x'
  simp only at hout hbag ⊢
  subst hbag
  cases hout with
  | skipped hzero => simp [StateBag.after]
  | refused config hconfig hrange => simp
  | reconciled config cdrom hconfig hlo hhi hcdrom _ _ _ _ hpath =>
    cases hpath <;> simp [StateBag.after]

/-- Witness of C8: count 1, one ISO path, IDE, a driver that fails every call:
`Run` halts on `EjectCdroms` with one put. -/
theorem Run_halts_iff_error_put_witness :
    Run brokenVM ⟨some ⟨1⟩, some ⟨"ide", ["a.iso"]⟩⟩ (Exec.start () buildBag)
      = some (.ActionHalt,
          (Exec.mk () buildBag [(.EjectCdroms, some (.errorString "eject failed"))]
            ["Reattaching CD-ROM devices..."] []).Put "error"
            (.error (.Errorf "error ejecting cdrom media: " (.errorString "eject failed")))) ∧
    ((StepAction.ActionHalt = .ActionHalt ↔ ∃ value, ("error", value) ∈
        [("error", BagValue.error
          (.Errorf "error ejecting cdrom media: " (.errorString "eject failed")))]) ∧
      (List.map Prod.fst [("error", BagValue.error
          (.Errorf "error ejecting cdrom media: " (.errorString "eject failed")))]).count
        "error" ≤ 1 ∧
      (StepAction.ActionHalt = .ActionContinue →
        [("error", BagValue.error
          (.Errorf "error ejecting cdrom media: " (.errorString "eject failed")))] = [] ∧
        (fun k => if k = "error" then some (BagValue.error
          (.Errorf "error ejecting cdrom media: " (.errorString "eject failed")))
          else buildBag k) = buildBag)) :=
  ⟨rfl, Run_halts_iff_error_put brokenVM ⟨some ⟨1⟩, some ⟨"ide", ["a.iso"]⟩⟩ () buildBag _ _ rfl⟩

/-! ## The SATA controller -/

/-- C9: for every run, `AddSATAController` and `FindSATAController` are each
called at most once; `AddSATAController` is called only when the bus type is
"sata", right after a `FindSATAController` call that returned
`ErrNoSataController`; it is not called when `FindSATAController` returned no
error; and when the bus type is not "sata" neither method is called. -/
theorem AddSATAController_only_when_absent {σ : Type} (d : VirtualMachine σ)
    (s : StepReattachCDRom) (st : σ) (bag : StateBag) (act : StepAction) (x' : Exec σ)
    (hrun : Run d s (Exec.start st bag) = some (act, x')) :
    (calls x'.trace).count .AddSATAController ≤ 1 ∧
      (calls x'.trace).count .FindSATAController ≤ 1 ∧
      (.AddSATAController ∈ calls x'.trace →
        (∃ cdrom, s.CDRomConfig = some cdrom ∧ cdrom.CdromType = "sata") ∧
        ∃ before result after, x'.trace =
          before ++ [(.FindSATAController, some .ErrNoSataController),
            (.AddSATAController, result)] ++ after) ∧
      ((.FindSATAController, none) ∈ x'.trace → .AddSATAController ∉ calls x'.trace) ∧
      (∀ cdrom, s.CDRomConfig = some cdrom → cdrom.CdromType ≠ "sata" →
        .FindSATAController ∉ calls x'.trace ∧ .AddSATAController ∉ calls x'.trace) := by
  obtain ⟨hout, -⟩ := Run_outcome d s st bag _ _ hrun
  obtain ⟨vm1, bag1, trace1, said1, puts1⟩ := x'
  simp only at hout ⊢
  cases hout with
  | skipped hzero => simp [calls]
  | refused config hconfig hrange => simp [calls]
  | reconciled config cdrom hconfig hlo hhi hcdrom _ _ _ _ hpath =>
    have hsame : ∀ c, s.CDRomConfig = some c → c = cdrom := by
      intro c hc
      rw [hcdrom] at hc
      exact (Option.some.inj hc).symm
    cases hpath with
    | removeFailed hn e st1 hremove => simp [calls]
    | ejectFailedAfterRemove hn e st1 st2 hremove heject => simp [calls]
    | removed hn st1 st2 hremove heject => simp [calls]
    | ejectFailed hn e st1 heject => simp [calls]
    | removeNoneFailed hn e st1 st2 heject hremove => simp [calls]
    | addControllerFailed hn ht e st1 st2 st3 st4 heject hremove hfind hadd =>
      refine ⟨by simp [calls], by simp [calls], fun _ => ⟨⟨cdrom, hcdrom, ht⟩,
        [(.EjectCdroms, none), (.RemoveCdroms 0, none)], some e, [], rfl⟩, by simp, ?_⟩
      intro c hc hne
      rw [hsame c hc] at hne
      exact absurd ht hne
    | kept hn st1 st2 st3 ctl heject hremove hctl =>
      cases hctl with
      | notSata ht => simp [calls]
      | notAdded ht f st5 hfind hf =>
        refine ⟨by simp [calls], by simp [calls], by simp [calls], by simp [calls], ?_⟩
        intro c hc hne
        rw [hsame c hc] at hne
        exact absurd ht hne
      | added ht st5 st6 hfind hadd =>
        refine ⟨by simp [calls], by simp [calls], fun _ => ⟨⟨cdrom, hcdrom, ht⟩,
          [(.EjectCdroms, none), (.RemoveCdroms 0, none)], none, [], rfl⟩, by simp, ?_⟩
        intro c hc hne
        rw [hsame c hc] at hne
        exact absurd ht hne
    | makeFailed hn e st1 st2 st3 st4 ctl heject hremove hctl hmake =>
      cases hctl with
      | notSata ht => simp [calls]
      | notAdded ht f st5 hfind hf =>
        refine ⟨by simp [calls], by simp [calls], by simp [calls], by simp [calls], ?_⟩
        intro c hc hne
        rw [hsame c hc] at hne
        exact absurd ht hne
      | added ht st5 st6 hfind hadd =>
        refine ⟨by simp [calls], by simp [calls], fun _ => ⟨⟨cdrom, hcdrom, ht⟩,
          [(.EjectCdroms, none), (.RemoveCdroms 0, none)], none, [_], rfl⟩, by simp, ?_⟩
        intro c hc hne
        rw [hsame c hc] at hne
        exact absurd ht hne
    | made hn st1 st2 st3 st4 ctl heject hremove hctl hmake =>
      cases hctl with
      | notSata ht => simp [calls]
      | notAdded ht f st5 hfind hf =>
        refine ⟨by simp [calls], by simp [calls], by simp [calls], by simp [calls], ?_⟩
        intro c hc hne
        rw [hsame c hc] at hne
        exact absurd ht hne
      | added ht st5 st6 hfind hadd =>
        refine ⟨by simp [calls], by simp [calls], fun _ => ⟨⟨cdrom, hcdrom, ht⟩,
          [(.EjectCdroms, none), (.RemoveCdroms 0, none)], none, [_], rfl⟩, by simp, ?_⟩
        intro c hc hne
        rw [hsame c hc] at hne
        exact absurd ht hne

/-- Witness of C9: count 3, no ISO path, SATA, no controller on the machine. -/
theorem AddSATAController_only_when_absent_witness :
    Run noControllerVM ⟨some ⟨3⟩, some ⟨"sata", []⟩⟩ (Exec.start () buildBag)
      = some (.ActionContinue,
          { vm := (), bag := buildBag, trace := controllerAddedTrace,
            said := ["Reattaching CD-ROM devices...", "Adding SATA controller...",
              "Adding CD-ROM devices..."],
            puts := [] }) ∧
    ((calls controllerAddedTrace).count .AddSATAController ≤ 1 ∧
      (calls controllerAddedTrace).count .FindSATAController ≤ 1 ∧
      (.AddSATAController ∈ calls controllerAddedTrace →
        (∃ cdrom, (some ⟨"sata", []⟩ : Option CDRomConfig) = some cdrom
          ∧ cdrom.CdromType = "sata") ∧
        ∃ before result after, controllerAddedTrace =
          before ++ [(.FindSATAController, some .ErrNoSataController),
            (.AddSATAController, result)] ++ after) ∧
      ((.FindSATAController, none) ∈ controllerAddedTrace →
        .AddSATAController ∉ calls controllerAddedTrace) ∧
      (∀ cdrom, (some ⟨"sata", []⟩ : Option CDRomConfig) = some cdrom →
        cdrom.CdromType ≠ "sata" →
        .FindSATAController ∉ calls controllerAddedTrace ∧
          .AddSATAController ∉ calls controllerAddedTrace)) :=
  ⟨rfl,
    AddSATAController_only_when_absent noControllerVM ⟨some ⟨3⟩, some ⟨"sata", []⟩⟩ ()
      buildBag .ActionContinue
      { vm := (), bag := buildBag, trace := controllerAddedTrace,
        said := ["Reattaching CD-ROM devices...", "Adding SATA controller...",
          "Adding CD-ROM devices..."],
        puts := [] } rfl⟩

/-! ## Cleanup -/

/-- C10: `Cleanup` does nothing: for every step and every execution state, the
state bag, the trace of driver calls (none is added), the machine and the other
logs are after `Cleanup` what they were before. -/
theorem Cleanup_does_nothing {σ : Type} (d : VirtualMachine σ) (s : StepReattachCDRom)
    (x : Exec σ) :
    (Cleanup d s x).bag = x.bag ∧ (Cleanup d s x).trace = x.trace ∧
      (Cleanup d s x).vm = x.vm ∧ (Cleanup d s x).puts = x.puts ∧
      (Cleanup d s x).said = x.said :=
  ⟨rfl, rfl, rfl, rfl, rfl⟩


/-! ## More ISO paths than wanted devices -/

/-- C12: with `reattach_cdroms` in 1..4 and as many ISO paths, whatever the bus
type and the driver: `MakeCdroms` is not called; the calls that act on CD-ROM
devices are an initial part of `EjectCdroms`, `RemoveCdroms(0)`; `EjectCdroms`
is called first, and if the driver fails it, it is the only call and `Run`
halts; if the driver performs it, `RemoveCdroms(0)` is called second, and if the
driver fails that, it is the last call and `Run` halts; when the driver performs
both, the calls that act on CD-ROM devices are exactly `EjectCdroms` followed
by `RemoveCdroms(0)`, the first two calls of the trace, and only calls about the
SATA controller follow. -/
theorem Run_zero_delta {σ : Type} (d : VirtualMachine σ) (s : StepReattachCDRom)
    (st : σ) (bag : StateBag) (hui : bag "ui" = some .ui) (hvm : bag "vm" = some .vm)
    (config : ReattachCDRomConfig) (hconfig : s.Config = some config)
    (hlo : 1 ≤ config.ReattachCDRom) (hhi : config.ReattachCDRom ≤ 4)
    (cdrom : CDRomConfig) (hcdrom : s.CDRomConfig = some cdrom)
    (heq : (cdrom.ISOPaths.length : Int) = config.ReattachCDRom) :
    ∃ act x', Run d s (Exec.start st bag) = some (act, x') ∧
      (∀ t n empty, .MakeCdroms t n empty ∉ calls x'.trace) ∧
      cdromCalls x'.trace <+: [.EjectCdroms, .RemoveCdroms 0] ∧
      (∀ e st1, d.EjectCdroms st = (some e, st1) →
        act = .ActionHalt ∧ x'.trace = [(.EjectCdroms, some e)]) ∧
      (∀ st1 e st2, d.EjectCdroms st = (none, st1) → d.RemoveCdroms 0 st1 = (some e, st2) →
        act = .ActionHalt ∧ x'.trace = [(.EjectCdroms, none), (.RemoveCdroms 0, some e)]) ∧
      (∀ st1 st2, d.EjectCdroms st = (none, st1) → d.RemoveCdroms 0 st1 = (none, st2) →
        cdromCalls x'.trace = [.EjectCdroms, .RemoveCdroms 0] ∧
        ∃ rest, x'.trace = (.EjectCdroms, none) :: (.RemoveCdroms 0, none) :: rest ∧
          ∀ ev ∈ rest, ev.1 = .FindSATAController ∨ ev.1 = .AddSATAController) := by
  obtain ⟨act, x', hrun, hpath, -⟩ :=
    Run_reconciles d s st bag hui hvm config hconfig hlo hhi cdrom hcdrom
  refine ⟨act, x', hrun, ?_⟩
  obtain ⟨vm1, bag1, trace1, said1, puts1⟩ := x'
  simp only at hpath ⊢
  cases hpath with
  | removeFailed hn e st1 hremove => omega
  | ejectFailedAfterRemove hn e st1 st2 hremove heject => omega
  | removed hn st1 st2 hremove heject => omega
  | ejectFailed h0 e st1 heject =>
    refine ⟨by simp [calls],
      by simp [calls, cdromCalls, DriverCall.onCdroms, List.prefix_iff_eq_append],
      ?_, ?_, ?_⟩ <;> intros <;> simp_all
  | removeNoneFailed h0 e st1 st2 heject hremove =>
    refine ⟨by simp [calls], by simp [calls, cdromCalls, DriverCall.onCdroms],
      ?_, ?_, ?_⟩ <;> intros <;> simp_all
  | addControllerFailed h0 ht e st1 st2 st3 st4 heject hremove hfind hadd =>
    refine ⟨by simp [calls], by simp [calls, cdromCalls, DriverCall.onCdroms],
      ?_, ?_, ?_⟩ <;> intros <;> simp_all [calls, cdromCalls, DriverCall.onCdroms] <;> aesop
  | kept h0 st1 st2 st3 ctl heject hremove hctl =>
    cases hctl <;>
      refine ⟨by simp [calls], by simp [calls, cdromCalls, DriverCall.onCdroms],
        ?_, ?_, ?_⟩ <;> intros <;> simp_all [calls, cdromCalls, DriverCall.onCdroms] <;> aesop
  | makeFailed h0 e st1 st2 st3 st4 ctl heject hremove hctl hmake => omega
  | made h0 st1 st2 st3 st4 ctl heject hremove hctl hmake => omega

/-- Witness of C12: count 2, two ISO paths, SATA, no controller on the machine:
`EjectCdroms`, `RemoveCdroms(0)`, then the controller is looked up and added,
and no device is made. -/
theorem Run_zero_delta_witness :
    buildBag "ui" = some .ui ∧ buildBag "vm" = some .vm ∧
    (1 : Int) ≤ 2 ∧ (2 : Int) ≤ 4 ∧ (((["pathA", "pathB"] : List String).length : Int) = 2) ∧
    Run noControllerVM ⟨some ⟨2⟩, some ⟨"sata", ["pathA", "pathB"]⟩⟩ (Exec.start () buildBag)
      = some (.ActionContinue,
          { vm := (), bag := buildBag,
            trace := [(.EjectCdroms, none), (.RemoveCdroms 0, none),
              (.FindSATAController, some .ErrNoSataController), (.AddSATAController, none)],
            said := ["Reattaching CD-ROM devices...", "Adding SATA controller..."],
            puts := [] }) ∧
    (∃ act x', Run noControllerVM ⟨some ⟨2⟩, some ⟨"sata", ["pathA", "pathB"]⟩⟩ (Exec.start () buildBag) = some (act, x') ∧
      (∀ t n empty, .MakeCdroms t n empty ∉ calls x'.trace) ∧
      cdromCalls x'.trace <+: [.EjectCdroms, .RemoveCdroms 0] ∧
      (∀ e st1, noControllerVM.EjectCdroms () = (some e, st1) →
        act = .ActionHalt ∧ x'.trace = [(.EjectCdroms, some e)]) ∧
      (∀ st1 e st2, noControllerVM.EjectCdroms () = (none, st1) → noControllerVM.RemoveCdroms 0 st1 = (some e, st2) →
        act = .ActionHalt ∧ x'.trace = [(.EjectCdroms, none), (.RemoveCdroms 0, some e)]) ∧
      (∀ st1 st2, noControllerVM.EjectCdroms () = (none, st1) → noControllerVM.RemoveCdroms 0 st1 = (none, st2) →
        cdromCalls x'.trace = [.EjectCdroms, .RemoveCdroms 0] ∧
        ∃ rest, x'.trace = (.EjectCdroms, none) :: (.RemoveCdroms 0, none) :: rest ∧
          ∀ ev ∈ rest, ev.1 = .FindSATAController ∨ ev.1 = .AddSATAController)) :=
  ⟨rfl, rfl, by decide, by decide, by decide, rfl,
    Run_zero_delta noControllerVM ⟨some ⟨2⟩, some ⟨"sata", ["pathA", "pathB"]⟩⟩ () buildBag
      rfl rfl ⟨2⟩ rfl (by decide) (by decide) ⟨"sata", ["pathA", "pathB"]⟩ rfl (by decide)⟩


end Vsphere
